import Mathlib

/-!
Shallow embedding of the single-event-upset (SEU) detector in `src/main.py`.

Modelling conventions: Python floats are exact rationals (`ℚ`); Python ints
are `ℕ`/`ℤ` (Python `int(...)` of a nonnegative value is `Int.floor`); the
`bitarray` arena is a `List Bool`; mutation of `self.data` and
`self.force_reinit` is explicit state passing on a `SEUDetector` structure;
the statistics file is an `Option TStat` (parsed content, `none` when the
file is absent); elapsed wall-clock time is a rational parameter.
-/

/-- Statistics record (class `TStat` in the source, persisted as `stat.json`). -/
structure TStat where
  bitSeconds : ℚ
  GbitHours : ℚ
  SEUCases : ℕ
  runSeconds : ℚ
  runHours : ℚ
deriving DecidableEq

/-- Mutable state of class `SEUDetector`: the bit arena `self.data` and the
`self.force_reinit` flag armed when an upset is found. -/
structure SEUDetector where
  data : List Bool
  force_reinit : Bool
deriving DecidableEq

/-- Source constant `NO_UPDATE = 0`. -/
def NO_UPDATE : ℕ := 0

/-- Source constant `UPDATE_NO_CHECK = 1`. -/
def UPDATE_NO_CHECK : ℕ := 1

/-- Source constant `UPDATE_WITH_CHECK = 2`. -/
def UPDATE_WITH_CHECK : ℕ := 2

/-- Class constant `FREE_MEMORY_USAGE_RATE = 0.75`. -/
def FREE_MEMORY_USAGE_RATE : ℚ := 0.75

/-- Class constant `RELATIVE_DATA_LENGTH_CHANGE_TO_UPDATE = 0.2`. -/
def RELATIVE_DATA_LENGTH_CHANGE_TO_UPDATE : ℚ := 0.2

/-- Class constant `CHECK_MEMORY_EVERY = 1`. -/
def CHECK_MEMORY_EVERY : ℚ := 1

/-- Class constant `CHECK_DATA_EVERY = 10`. -/
def CHECK_DATA_EVERY : ℚ := 10

/-- Class constant `MIN_INCREASE_DELAY = 60` (declared in the source, unused). -/
def MIN_INCREASE_DELAY : ℚ := 60

/-- Class constant `STATISTICS_FILENAME`. -/
def STATISTICS_FILENAME : String := "stat.json"

/-- Initial detector state built by `__init__`: `self.data = bitarray()`
(empty) and `self.force_reinit = False`. -/
def detector_init : SEUDetector := ⟨[], false⟩

/-- Embedding of `SEUDetector.get_memory_to_use`: `free = get_free_memory()`
is the probe's answer in bytes, `used = len(self.data) / 8`,
`total = free + used`, and the result is `int(total * FREE_MEMORY_USAGE_RATE)`
(truncation of a nonnegative value, hence `Int.floor`). -/
def get_memory_to_use (free : ℕ) (s : SEUDetector) : ℤ :=
  ⌊((free : ℚ) + (s.data.length : ℚ) / 8) * FREE_MEMORY_USAGE_RATE⌋

/-- Embedding of `SEUDetector.should_update_array(use_bits)`: returns the
updated detector (the branch for `force_reinit` clears the flag) together
with the sizing decision. -/
def should_update_array (s : SEUDetector) (use_bits : ℕ) : SEUDetector × ℕ :=
  if s.force_reinit then
    ({ s with force_reinit := false }, UPDATE_NO_CHECK)
  else if use_bits ≠ 0 ∧ s.data.length = 0 then
    (s, UPDATE_NO_CHECK)
  else if use_bits = 0 ∧ s.data.length ≠ 0 then
    (s, UPDATE_NO_CHECK)
  else if use_bits = 0 ∧ s.data.length = 0 then
    (s, NO_UPDATE)
  else
    let delta : ℤ := (use_bits : ℤ) - (s.data.length : ℤ)
    let rel : ℚ := |(delta : ℚ)| / ((min use_bits s.data.length : ℕ) : ℚ)
    if rel > RELATIVE_DATA_LENGTH_CHANGE_TO_UPDATE then
      if delta > 0 then (s, UPDATE_WITH_CHECK) else (s, UPDATE_NO_CHECK)
    else
      (s, NO_UPDATE)

/-- Division-guarded variant of `should_update_array`: identical control
flow, but the branch that divides by `min(use_bits, len(self.data))` first
checks that the divisor is nonzero and answers `none` when the division
would be ill-defined. Used to state that the source's division is always
reached with a positive divisor. -/
def should_update_array_safe (s : SEUDetector) (use_bits : ℕ) : Option (SEUDetector × ℕ) :=
  if s.force_reinit then
    some ({ s with force_reinit := false }, UPDATE_NO_CHECK)
  else if use_bits ≠ 0 ∧ s.data.length = 0 then
    some (s, UPDATE_NO_CHECK)
  else if use_bits = 0 ∧ s.data.length ≠ 0 then
    some (s, UPDATE_NO_CHECK)
  else if use_bits = 0 ∧ s.data.length = 0 then
    some (s, NO_UPDATE)
  else if min use_bits s.data.length = 0 then
    none
  else
    let delta : ℤ := (use_bits : ℤ) - (s.data.length : ℤ)
    let rel : ℚ := |(delta : ℚ)| / ((min use_bits s.data.length : ℕ) : ℚ)
    if rel > RELATIVE_DATA_LENGTH_CHANGE_TO_UPDATE then
      if delta > 0 then some (s, UPDATE_WITH_CHECK) else some (s, UPDATE_NO_CHECK)
    else
      some (s, NO_UPDATE)

/-- Embedding of `SEUDetector.load_statistics`: the file system is an
`Option TStat`; a missing file (`FileNotFoundError`) is caught and answered
with the all-zero record. -/
def load_statistics (file : Option TStat) : TStat :=
  match file with
  | some st => st
  | none =>
    { bitSeconds := 0, GbitHours := 0, SEUCases := 0, runSeconds := 0, runHours := 0 }

/-- Embedding of `SEUDetector.update_array(use_bits)`: the old buffer is
released and replaced by a fresh zero-filled buffer of `use_bits` bits
(`bitarray(use_bits)` followed by `setall(0)`). -/
def update_array (s : SEUDetector) (use_bits : ℕ) : SEUDetector :=
  { s with data := List.replicate use_bits false }

/-- Embedding of the scan inside `check_data`: `self.data.index(one)` with
`one` a single set bit, i.e. the index of the first bit equal to 1; the
`ValueError` when no bit is set is caught, hence an `Option`. -/
def scan : List Bool → Option ℕ
  | [] => none
  | b :: rest => if b then some 0 else (scan rest).map (fun i => i + 1)

/-- Embedding of `SEUDetector.check_data(stat, start_at)`: `period` is the
elapsed time `time.time() - start_at`; exposure counters are accumulated
and the derived fields recomputed, then the arena is scanned and, when a
set bit is found, `SEUCases` is incremented and `force_reinit` armed. -/
def check_data (s : SEUDetector) (stat : TStat) (period : ℚ) : SEUDetector × TStat :=
  let bitSeconds : ℚ := stat.bitSeconds + (s.data.length : ℚ) * period
  let runSeconds : ℚ := stat.runSeconds + period
  let stat1 : TStat :=
    { stat with
      bitSeconds := bitSeconds
      GbitHours := bitSeconds / 3600 / 10 ^ 9
      runSeconds := runSeconds
      runHours := runSeconds / 3600 }
  match scan s.data with
  | none => (s, stat1)
  | some _ =>
    ({ s with force_reinit := true }, { stat1 with SEUCases := stat1.SEUCases + 1 })

/-- Embedding of the memory-check branch of `SEUDetector.run_once`: compute
`use_bits`, consult the sizing policy and dispatch on the decision. The
result carries the new detector, the statistics and whether the exposure
period ended (`return` in the source); `none` stands for the
`raise ValueError(should)` branch. -/
def run_once_memory_check (s : SEUDetector) (stat : TStat) (free : ℕ) (period : ℚ) :
    Option (SEUDetector × TStat × Bool) :=
  let use_bits : ℕ := (get_memory_to_use free s).toNat * 8
  let r := should_update_array s use_bits
  if r.2 = UPDATE_NO_CHECK then
    some (update_array r.1 use_bits, stat, true)
  else if r.2 = UPDATE_WITH_CHECK then
    let c := check_data r.1 stat period
    some (update_array c.1 use_bits, c.2, true)
  else if r.2 = NO_UPDATE then
    some (r.1, stat, false)
  else
    none

/-- Embedding of the startup part of `SEUDetector.run`: load statistics
(file absent) and perform the initial allocation
`update_array(get_memory_to_use() * 8)`, with `free` the probe's answer. -/
def run_init (free : ℕ) : SEUDetector × TStat :=
  (update_array detector_init ((get_memory_to_use free detector_init).toNat * 8),
   load_statistics none)

/-- Iterated data checkpoints: `k` successive executions of `check_data`,
each over an exposure period of length `period`. -/
def checkpoints : SEUDetector → TStat → ℚ → ℕ → SEUDetector × TStat
  | s, stat, _, 0 => (s, stat)
  | s, stat, period, k + 1 =>
    let r := check_data s stat period
    checkpoints r.1 r.2 period k

/-! ### Helper lemmas -/

lemma scan_replicate_false (n : ℕ) : scan (List.replicate n false) = none := by
  induction n with
  | zero => rfl
  | succ k ih => simp [List.replicate_succ, scan, ih]

lemma check_data_fst_data (s : SEUDetector) (stat : TStat) (t : ℚ) :
    (check_data s stat t).1.data = s.data := by
  unfold check_data
  cases h : scan s.data <;> simp

lemma check_data_fst_of_none (s : SEUDetector) (stat : TStat) (t : ℚ)
    (h : scan s.data = none) : (check_data s stat t).1 = s := by
  unfold check_data
  rw [h]

lemma check_data_bitSeconds (s : SEUDetector) (stat : TStat) (t : ℚ) :
    (check_data s stat t).2.bitSeconds = stat.bitSeconds + (s.data.length : ℚ) * t := by
  unfold check_data
  cases h : scan s.data <;> simp

lemma check_data_runSeconds (s : SEUDetector) (stat : TStat) (t : ℚ) :
    (check_data s stat t).2.runSeconds = stat.runSeconds + t := by
  unfold check_data
  cases h : scan s.data <;> simp

lemma check_data_GbitHours (s : SEUDetector) (stat : TStat) (t : ℚ) :
    (check_data s stat t).2.GbitHours =
      (stat.bitSeconds + (s.data.length : ℚ) * t) / 3600 / 10 ^ 9 := by
  unfold check_data
  cases h : scan s.data <;> simp

lemma check_data_runHours (s : SEUDetector) (stat : TStat) (t : ℚ) :
    (check_data s stat t).2.runHours = (stat.runSeconds + t) / 3600 := by
  unfold check_data
  cases h : scan s.data <;> simp

lemma check_data_SEUCases_of_none (s : SEUDetector) (stat : TStat) (t : ℚ)
    (h : scan s.data = none) : (check_data s stat t).2.SEUCases = stat.SEUCases := by
  unfold check_data
  rw [h]

lemma should_update_array_of_force (s : SEUDetector) (d : ℕ)
    (h : s.force_reinit = true) :
    should_update_array s d = ({ s with force_reinit := false }, UPDATE_NO_CHECK) := by
  unfold should_update_array
  rw [h]
  simp

lemma decision_char (s : SEUDetector) (d : ℕ) (hf : s.force_reinit = false)
    (hc : 0 < s.data.length) (hd : 0 < d) :
    should_update_array s d =
      (s, if |(((d : ℤ) - (s.data.length : ℤ) : ℤ) : ℚ)| /
              ((min d s.data.length : ℕ) : ℚ) > RELATIVE_DATA_LENGTH_CHANGE_TO_UPDATE then
            (if s.data.length < d then UPDATE_WITH_CHECK else UPDATE_NO_CHECK)
          else NO_UPDATE) := by
  unfold should_update_array
  rw [hf]
  have h1 : ¬ (d ≠ 0 ∧ s.data.length = 0) := by omega
  have h2 : ¬ (d = 0 ∧ s.data.length ≠ 0) := by omega
  have h3 : ¬ (d = 0 ∧ s.data.length = 0) := by omega
  simp only [Bool.false_eq_true, if_false, if_neg h1, if_neg h2, if_neg h3]
  split_ifs with g1 g2 g3 <;> first | rfl | omega


lemma decision_char_snd (s : SEUDetector) (d : ℕ) (hf : s.force_reinit = false)
    (hc : 0 < s.data.length) (hd : 0 < d) :
    (should_update_array s d).2 =
      if |(((d : ℤ) - (s.data.length : ℤ) : ℤ) : ℚ)| /
          ((min d s.data.length : ℕ) : ℚ) > RELATIVE_DATA_LENGTH_CHANGE_TO_UPDATE then
        (if s.data.length < d then UPDATE_WITH_CHECK else UPDATE_NO_CHECK)
      else NO_UPDATE := by
  rw [decision_char s d hf hc hd]

/-! ### Claims -/

/-- C1: with forceReinit false, the sizing policy matches the spec's table
((0,1000) and (1000,0) give UpdateNoCheck, (0,0) gives NoUpdate,
(1000,1300) gives UpdateWithCheck, (1000,700) gives UpdateNoCheck,
(1000,1100) gives NoUpdate), and for positive current and desired sizes it
returns UpdateWithCheck iff |desired-current|/min(desired,current) > 0.2
and the buffer grows, UpdateNoCheck iff that ratio exceeds 0.2 and the
buffer shrinks, and NoUpdate otherwise. -/
theorem C1_sizing_policy_table (c d : ℕ) (s : SEUDetector)
    (hf : s.force_reinit = false) (hc : s.data.length = c) :
    ((c = 0 ∧ d = 1000) → (should_update_array s d).2 = UPDATE_NO_CHECK) ∧
    ((c = 1000 ∧ d = 0) → (should_update_array s d).2 = UPDATE_NO_CHECK) ∧
    ((c = 0 ∧ d = 0) → (should_update_array s d).2 = NO_UPDATE) ∧
    ((c = 1000 ∧ d = 1300) → (should_update_array s d).2 = UPDATE_WITH_CHECK) ∧
    ((c = 1000 ∧ d = 700) → (should_update_array s d).2 = UPDATE_NO_CHECK) ∧
    ((c = 1000 ∧ d = 1100) → (should_update_array s d).2 = NO_UPDATE) ∧
    (0 < c → 0 < d →
      (((should_update_array s d).2 = UPDATE_WITH_CHECK ↔
          |(d : ℚ) - (c : ℚ)| / ((min d c : ℕ) : ℚ) > 0.2 ∧ c < d) ∧
       ((should_update_array s d).2 = UPDATE_NO_CHECK ↔
          |(d : ℚ) - (c : ℚ)| / ((min d c : ℕ) : ℚ) > 0.2 ∧ d < c) ∧
       ((should_update_array s d).2 = NO_UPDATE ↔
          ¬ (|(d : ℚ) - (c : ℚ)| / ((min d c : ℕ) : ℚ) > 0.2)))) := by
  subst hc
  refine ⟨?_, ?_, ?_, ?_, ?_, ?_, ?_⟩
  · rintro ⟨h1, h2⟩
    subst h2
    unfold should_update_array
    rw [hf]
    simp [h1]
  · rintro ⟨h1, h2⟩
    subst h2
    unfold should_update_array
    rw [hf]
    simp [h1]
  · rintro ⟨h1, h2⟩
    subst h2
    unfold should_update_array
    rw [hf]
    simp [h1]
  · rintro ⟨h1, h2⟩
    subst h2
    rw [decision_char_snd s 1300 hf (by omega) (by omega), h1]
    norm_num [RELATIVE_DATA_LENGTH_CHANGE_TO_UPDATE]
  · rintro ⟨h1, h2⟩
    subst h2
    rw [decision_char_snd s 700 hf (by omega) (by omega), h1]
    norm_num [RELATIVE_DATA_LENGTH_CHANGE_TO_UPDATE]
  · rintro ⟨h1, h2⟩
    subst h2
    rw [decision_char_snd s 1100 hf (by omega) (by omega), h1]
    norm_num [RELATIVE_DATA_LENGTH_CHANGE_TO_UPDATE]
  · intro hc0 hd0
    have hcast : ((((d : ℤ) - (s.data.length : ℤ) : ℤ) : ℚ)) =
        (d : ℚ) - (s.data.length : ℚ) := by
      push_cast
      ring
    rw [decision_char_snd s d hf hc0 hd0, hcast]
    unfold RELATIVE_DATA_LENGTH_CHANGE_TO_UPDATE
    by_cases hrel :
        |(d : ℚ) - (s.data.length : ℚ)| / ((min d s.data.length : ℕ) : ℚ) > 0.2
    · rw [if_pos hrel]
      have hne : d ≠ s.data.length := by
        intro he
        rw [he, sub_self, abs_zero, zero_div] at hrel
        norm_num at hrel
      by_cases hlt : s.data.length < d
      · rw [if_pos hlt]
        exact ⟨⟨fun _ => ⟨hrel, hlt⟩, fun _ => rfl⟩,
               ⟨fun h => absurd h (by decide), fun h => absurd h.2 (by omega)⟩,
               ⟨fun h => absurd h (by decide), fun h => absurd hrel h⟩⟩
      · rw [if_neg hlt]
        exact ⟨⟨fun h => absurd h (by decide), fun h => absurd h.2 hlt⟩,
               ⟨fun _ => ⟨hrel, by omega⟩, fun _ => rfl⟩,
               ⟨fun h => absurd h (by decide), fun h => absurd hrel h⟩⟩
    · rw [if_neg hrel]
      exact ⟨⟨fun h => absurd h (by decide), fun h => absurd h.1 hrel⟩,
             ⟨fun h => absurd h (by decide), fun h => absurd h.1 hrel⟩,
             ⟨fun _ => hrel, fun _ => rfl⟩⟩

/-- C1 witness: the growth row of the table at current length 1000 and
desired length 1300 evaluates to UpdateWithCheck. -/
theorem C1_sizing_policy_table_witness :
    (should_update_array ⟨List.replicate 1000 false, false⟩ 1300).2 = UPDATE_WITH_CHECK :=
  (C1_sizing_policy_table 1000 1300 ⟨List.replicate 1000 false, false⟩ rfl
    (List.length_replicate 1000 false)).2.2.2.1 ⟨rfl, rfl⟩

/-- C2: when a checkpoint's scan finds a set bit, SEUCases is incremented by
exactly 1 and forceReinit is armed; the next sizing evaluation returns
UpdateNoCheck for every desired size and leaves forceReinit false, and
every operation (sizing evaluation, reallocation, upset-free checkpoint)
keeps forceReinit false once it is false, until a new upset is detected. -/
theorem C2_upset_response (s : SEUDetector) (stat : TStat) (t : ℚ) (i : ℕ)
    (h : scan s.data = some i) :
    (check_data s stat t).2.SEUCases = stat.SEUCases + 1 ∧
    (check_data s stat t).1.force_reinit = true ∧
    (∀ d : ℕ,
      (should_update_array (check_data s stat t).1 d).2 = UPDATE_NO_CHECK ∧
      (should_update_array (check_data s stat t).1 d).1.force_reinit = false) ∧
    (∀ s2 : SEUDetector, s2.force_reinit = false →
      ∀ d : ℕ, (should_update_array s2 d).1.force_reinit = false) ∧
    (∀ (s2 : SEUDetector) (n : ℕ), (update_array s2 n).force_reinit = s2.force_reinit) ∧
    (∀ (s2 : SEUDetector) (stat2 : TStat) (t2 : ℚ), s2.force_reinit = false →
      scan s2.data = none → (check_data s2 stat2 t2).1.force_reinit = false) := by
  have hcd : check_data s stat t =
      ({ s with force_reinit := true },
       { stat with
          bitSeconds := stat.bitSeconds + (s.data.length : ℚ) * t
          GbitHours := (stat.bitSeconds + (s.data.length : ℚ) * t) / 3600 / 10 ^ 9
          runSeconds := stat.runSeconds + t
          runHours := (stat.runSeconds + t) / 3600
          SEUCases := stat.SEUCases + 1 }) := by
    unfold check_data
    rw [h]
  refine ⟨by rw [hcd], by rw [hcd], ?_, ?_, ?_, ?_⟩
  · intro d
    rw [hcd]
    rw [should_update_array_of_force _ d rfl]
    exact ⟨rfl, rfl⟩
  · intro s2 hs2 d
    unfold should_update_array
    rw [hs2]
    simp only [Bool.false_eq_true, if_false]
    split_ifs <;> exact hs2
  · intro s2 n
    rfl
  · intro s2 stat2 t2 hs2 hscan
    rw [check_data_fst_of_none s2 stat2 t2 hscan]
    exact hs2

/-- C2 witness: a one-bit arena holding a set bit, checkpointed from the
zero statistics record over one second. -/
theorem C2_upset_response_witness :
    (check_data ⟨[true], false⟩ ⟨0, 0, 0, 0, 0⟩ 1).2.SEUCases = 0 + 1 ∧
    (check_data ⟨[true], false⟩ ⟨0, 0, 0, 0, 0⟩ 1).1.force_reinit = true :=
  ⟨(C2_upset_response ⟨[true], false⟩ ⟨0, 0, 0, 0, 0⟩ 1 0 rfl).1,
   (C2_upset_response ⟨[true], false⟩ ⟨0, 0, 0, 0, 0⟩ 1 0 rfl).2.1⟩

/-- C3: a checkpoint over elapsed time t with arena length L adds L*t to
bitSeconds and t to runSeconds, and afterwards GbitHours equals
bitSeconds/3600/1e9 and runHours equals runSeconds/3600; these equations
hold after every checkpoint, whether or not an upset is found. -/
theorem C3_checkpoint_exposure (s : SEUDetector) (stat : TStat) (t : ℚ) :
    (check_data s stat t).2.bitSeconds = stat.bitSeconds + (s.data.length : ℚ) * t ∧
    (check_data s stat t).2.runSeconds = stat.runSeconds + t ∧
    (check_data s stat t).2.GbitHours =
      (check_data s stat t).2.bitSeconds / 3600 / 10 ^ 9 ∧
    (check_data s stat t).2.runHours = (check_data s stat t).2.runSeconds / 3600 := by
  refine ⟨check_data_bitSeconds s stat t, check_data_runSeconds s stat t, ?_, ?_⟩
  · rw [check_data_GbitHours s stat t, check_data_bitSeconds s stat t]
  · rw [check_data_runHours s stat t, check_data_runSeconds s stat t]

/-- C5: the scan returns the index of the first (lowest-index) set bit when
one exists, and none when all bits are 0. -/
theorem C5_scan_first_set_bit (data : List Bool) :
    ((∃ b ∈ data, b = true) →
      ∃ i, scan data = some i ∧ data.getD i false = true ∧
        ∀ j, j < i → data.getD j false = false) ∧
    ((∀ b ∈ data, b = false) → scan data = none) := by
  induction data with
  | nil =>
    refine ⟨?_, fun _ => rfl⟩
    rintro ⟨b, hb, -⟩
    exact absurd hb (List.not_mem_nil b)
  | cons b rest ih =>
    constructor
    · rintro ⟨x, hx, hxt⟩
      by_cases hb : b = true
      · refine ⟨0, ?_, ?_, ?_⟩
        · unfold scan
          rw [hb]
          rfl
        · rw [hb]
          rfl
        · intro j hj
          omega
      · have hbf : b = false := by
          cases b
          · rfl
          · exact absurd rfl hb
        have hxrest : x ∈ rest := by
          rcases List.mem_cons.mp hx with he | hm
          · exfalso
            apply hb
            rw [← he]
            exact hxt
          · exact hm
        obtain ⟨i, hsi, hget, hprev⟩ := ih.1 ⟨x, hxrest, hxt⟩
        refine ⟨i + 1, ?_, ?_, ?_⟩
        · unfold scan
          rw [hbf]
          simp only [Bool.false_eq_true, if_false, hsi]
          rfl
        · rw [List.getD_cons_succ]
          exact hget
        · intro j hj
          cases j with
          | zero =>
            rw [List.getD_cons_zero]
            exact hbf
          | succ j2 =>
            rw [List.getD_cons_succ]
            exact hprev j2 (by omega)
    · intro hall
      have hbf : b = false := hall b (List.mem_cons_self b rest)
      have hrest : scan rest = none := ih.2 fun x hx => hall x (List.mem_cons_of_mem b hx)
      unfold scan
      rw [hbf, hrest]
      rfl

/-- C5 witness: on the arena [0,1] the scan finds index 1, and on [0,0] it
finds nothing. -/
theorem C5_scan_first_set_bit_witness :
    (∃ i, scan [false, true] = some i ∧ [false, true].getD i false = true ∧
      ∀ j, j < i → [false, true].getD j false = false) ∧
    scan [false, false] = none :=
  ⟨(C5_scan_first_set_bit [false, true]).1 ⟨true, by decide, rfl⟩,
   (C5_scan_first_set_bit [false, false]).2 (by decide)⟩

/-- C6: allocating the arena to n bits, for every n including 0, yields a
buffer on which an immediate scan returns none. -/
theorem C6_fresh_allocation_scans_clean (s : SEUDetector) (n : ℕ) :
    scan (update_array s n).data = none := by
  unfold update_array
  exact scan_replicate_false n

/-- C7: two sequential checkpoints with elapsed times t1 and t2 over an
unchanged arena produce exactly the final bitSeconds and runSeconds of a
single checkpoint with elapsed time t1 + t2. -/
theorem C7_checkpoint_additivity (s : SEUDetector) (stat : TStat) (t1 t2 : ℚ) :
    (check_data (check_data s stat t1).1 (check_data s stat t1).2 t2).2.bitSeconds =
      (check_data s stat (t1 + t2)).2.bitSeconds ∧
    (check_data (check_data s stat t1).1 (check_data s stat t1).2 t2).2.runSeconds =
      (check_data s stat (t1 + t2)).2.runSeconds := by
  constructor
  · rw [check_data_bitSeconds, check_data_bitSeconds, check_data_bitSeconds,
        check_data_fst_data]
    ring
  · rw [check_data_runSeconds, check_data_runSeconds, check_data_runSeconds]
    ring

/-- C8: loading statistics when the file is absent is not an error (the
loader is total on the absent-file case) and yields the record with all
five fields equal to zero. -/
theorem C8_load_statistics_absent_file :
    (load_statistics none).bitSeconds = 0 ∧
    (load_statistics none).GbitHours = 0 ∧
    (load_statistics none).SEUCases = 0 ∧
    (load_statistics none).runSeconds = 0 ∧
    (load_statistics none).runHours = 0 :=
  ⟨rfl, rfl, rfl, rfl, rfl⟩

/-- C10: a checkpoint over an arena with no set bit leaves the detector
state (arena and forceReinit) and the SEUCases counter unchanged; only the
four exposure fields of the statistics are modified. -/
theorem C10_no_upset_frame (s : SEUDetector) (stat : TStat) (t : ℚ)
    (h : scan s.data = none) :
    (check_data s stat t).1 = s ∧
    (check_data s stat t).1.force_reinit = s.force_reinit ∧
    (check_data s stat t).2.SEUCases = stat.SEUCases := by
  refine ⟨check_data_fst_of_none s stat t h, ?_, check_data_SEUCases_of_none s stat t h⟩
  rw [check_data_fst_of_none s stat t h]

/-- C10 witness: a checkpoint over the all-zero two-bit arena with the flag
armed leaves the flag and the counter unchanged. -/
theorem C10_no_upset_frame_witness :
    (check_data ⟨[false, false], true⟩ ⟨1, 2, 3, 4, 5⟩ 7).1 = ⟨[false, false], true⟩ ∧
    (check_data ⟨[false, false], true⟩ ⟨1, 2, 3, 4, 5⟩ 7).2.SEUCases = 3 :=
  ⟨(C10_no_upset_frame ⟨[false, false], true⟩ ⟨1, 2, 3, 4, 5⟩ 7 rfl).1,
   (C10_no_upset_frame ⟨[false, false], true⟩ ⟨1, 2, 3, 4, 5⟩ 7 rfl).2.2⟩

/-- C9: the sizing policy always returns one of the three decision values
NO_UPDATE, UPDATE_NO_CHECK, UPDATE_WITH_CHECK; the division-guarded variant
never fails (the division by min(use_bits, len) is only reached with a
positive divisor) and agrees with it; and the raise branch of run_once's
memory check is unreachable. -/
theorem C9_decision_safety (s : SEUDetector) (d : ℕ) :
    ((should_update_array s d).2 = NO_UPDATE ∨
     (should_update_array s d).2 = UPDATE_NO_CHECK ∨
     (should_update_array s d).2 = UPDATE_WITH_CHECK) ∧
    should_update_array_safe s d = some (should_update_array s d) ∧
    (∀ (stat : TStat) (free : ℕ) (t : ℚ),
      (run_once_memory_check s stat free t).isSome = true) := by
  have htri : ∀ (s2 : SEUDetector) (d2 : ℕ),
      (should_update_array s2 d2).2 = NO_UPDATE ∨
      (should_update_array s2 d2).2 = UPDATE_NO_CHECK ∨
      (should_update_array s2 d2).2 = UPDATE_WITH_CHECK := by
    intro s2 d2
    simp only [should_update_array]
    split_ifs <;> simp [NO_UPDATE, UPDATE_NO_CHECK, UPDATE_WITH_CHECK]
  refine ⟨htri s d, ?_, ?_⟩
  · simp only [should_update_array_safe, should_update_array]
    split_ifs <;> first | rfl | omega
  · intro stat free t
    unfold run_once_memory_check
    rcases htri s ((get_memory_to_use free s).toNat * 8) with h | h | h <;>
      simp [h, NO_UPDATE, UPDATE_NO_CHECK, UPDATE_WITH_CHECK]

/-! ### Startup scenario computations (claim C4) -/

lemma get_memory_to_use_empty : get_memory_to_use 1000000000 detector_init = 750000000 := by
  unfold get_memory_to_use detector_init FREE_MEMORY_USAGE_RATE
  norm_num

lemma run_init_fst :
    (run_init 1000000000).1 = ⟨List.replicate 6000000000 false, false⟩ := by
  unfold run_init
  rw [get_memory_to_use_empty]
  rfl

lemma run_init_length : (run_init 1000000000).1.data.length = 6000000000 := by
  rw [run_init_fst]
  exact List.length_replicate 6000000000 false

lemma get_memory_to_use_after :
    get_memory_to_use 1000000000 (run_init 1000000000).1 = 1312500000 := by
  rw [run_init_fst]
  show (⌊((1000000000 : ℚ) + ((List.replicate 6000000000 false).length : ℚ) / 8) *
    FREE_MEMORY_USAGE_RATE⌋ : ℤ) = 1312500000
  rw [List.length_replicate]
  unfold FREE_MEMORY_USAGE_RATE
  norm_num

lemma get_memory_to_use_consistent :
    get_memory_to_use 250000000 (run_init 1000000000).1 = 750000000 := by
  rw [run_init_fst]
  show (⌊((250000000 : ℚ) + ((List.replicate 6000000000 false).length : ℚ) / 8) *
    FREE_MEMORY_USAGE_RATE⌋ : ℤ) = 750000000
  rw [List.length_replicate]
  unfold FREE_MEMORY_USAGE_RATE
  norm_num

/-- C4 counterexample: with the free-memory probe frozen at 1 GB (10^9
bytes) on every query, the startup allocation holds 6*10^9 bits, but the
very next memory check computes a desired size of 10.5*10^9 bits (because
get_memory_to_use adds the arena's own bytes back to the reported free
memory) and decides UpdateWithCheck, so a second reallocation occurs: the
detector does not perform exactly one allocation. -/
theorem C4_counterexample_constant_probe :
    (run_init 1000000000).1.data.length = 6000000000 ∧
    (get_memory_to_use 1000000000 (run_init 1000000000).1).toNat * 8 = 10500000000 ∧
    (should_update_array (run_init 1000000000).1
        ((get_memory_to_use 1000000000 (run_init 1000000000).1).toNat * 8)).2 =
      UPDATE_WITH_CHECK := by
  have hf : (run_init 1000000000).1.force_reinit = false := by
    rw [run_init_fst]
  have h2 : (get_memory_to_use 1000000000 (run_init 1000000000).1).toNat * 8 =
      10500000000 := by
    rw [get_memory_to_use_after]
    rfl
  refine ⟨run_init_length, h2, ?_⟩
  rw [h2, decision_char_snd _ _ hf (by rw [run_init_length]; omega) (by omega),
    run_init_length]
  norm_num [RELATIVE_DATA_LENGTH_CHANGE_TO_UPDATE]

lemma checkpoints_no_upset (s : SEUDetector) (h : scan s.data = none) :
    ∀ (k : ℕ) (stat : TStat) (t : ℚ),
      (checkpoints s stat t k).1 = s ∧
      (checkpoints s stat t k).2.SEUCases = stat.SEUCases ∧
      (checkpoints s stat t k).2.runSeconds = stat.runSeconds + k * t ∧
      (checkpoints s stat t k).2.bitSeconds =
        stat.bitSeconds + (s.data.length : ℚ) * ((k : ℚ) * t) := by
  intro k
  induction k with
  | zero =>
    intro stat t
    have h0 : checkpoints s stat t 0 = (s, stat) := rfl
    rw [h0]
    norm_num
  | succ n ihn =>
    intro stat t
    have hstep : checkpoints s stat t (n + 1) =
        checkpoints (check_data s stat t).1 (check_data s stat t).2 t n := rfl
    rw [hstep, check_data_fst_of_none s stat t h]
    obtain ⟨ha, hb, hc2, hd2⟩ := ihn (check_data s stat t).2 t
    refine ⟨ha, ?_, ?_, ?_⟩
    · rw [hb, check_data_SEUCases_of_none s stat t h]
    · rw [hc2, check_data_runSeconds]
      push_cast
      ring
    · rw [hd2, check_data_bitSeconds]
      push_cast
      ring

/-- C4 amended: starting with no statistics file and a host holding 1 GB of
available memory whose probe accounts for the detector's own allocation
(free = 1 GB minus the arena's 0.75 GB once allocated), the startup
allocation is the only one: it holds 6*10^9 bits (0.75 GB of memory), the
subsequent memory checks decide NoUpdate and leave the state unchanged,
and for every positive exposure period, any number of all-zero scans keeps
SEUCases at 0 while runSeconds and bitSeconds strictly increase at each
checkpoint. -/
theorem C4_amended_single_allocation (t : ℚ) (ht : 0 < t) (k : ℕ) :
    (run_init 1000000000).1.data.length = 6000000000 ∧
    should_update_array (run_init 1000000000).1
        ((get_memory_to_use 250000000 (run_init 1000000000).1).toNat * 8) =
      ((run_init 1000000000).1, NO_UPDATE) ∧
    (checkpoints (run_init 1000000000).1 (run_init 1000000000).2 t k).2.SEUCases = 0 ∧
    (checkpoints (run_init 1000000000).1 (run_init 1000000000).2 t k).2.runSeconds <
      (checkpoints (run_init 1000000000).1 (run_init 1000000000).2 t (k + 1)).2.runSeconds ∧
    (checkpoints (run_init 1000000000).1 (run_init 1000000000).2 t k).2.bitSeconds <
      (checkpoints (run_init 1000000000).1 (run_init 1000000000).2 t (k + 1)).2.bitSeconds := by
  have hf : (run_init 1000000000).1.force_reinit = false := by
    rw [run_init_fst]
  have hscan : scan (run_init 1000000000).1.data = none := by
    rw [run_init_fst]
    exact scan_replicate_false 6000000000
  have hstat : (run_init 1000000000).2 = load_statistics none := rfl
  refine ⟨run_init_length, ?_, ?_, ?_, ?_⟩
  · rw [get_memory_to_use_consistent]
    have hu : ((750000000 : ℤ).toNat * 8 : ℕ) = 6000000000 := rfl
    rw [hu, decision_char _ _ hf (by rw [run_init_length]; omega) (by omega),
      run_init_length]
    norm_num [RELATIVE_DATA_LENGTH_CHANGE_TO_UPDATE]
  · rw [(checkpoints_no_upset _ hscan k _ t).2.1, hstat]
    rfl
  · rw [(checkpoints_no_upset _ hscan k _ t).2.2.1,
      (checkpoints_no_upset _ hscan (k + 1) _ t).2.2.1]
    push_cast
    nlinarith [ht]
  · rw [(checkpoints_no_upset _ hscan k _ t).2.2.2,
      (checkpoints_no_upset _ hscan (k + 1) _ t).2.2.2, run_init_length]
    push_cast
    nlinarith [ht]

/-- C4 amended witness: one second of exposure, first checkpoint. -/
theorem C4_amended_single_allocation_witness :
    (checkpoints (run_init 1000000000).1 (run_init 1000000000).2 1 0).2.SEUCases = 0 ∧
    (checkpoints (run_init 1000000000).1 (run_init 1000000000).2 1 0).2.runSeconds <
      (checkpoints (run_init 1000000000).1 (run_init 1000000000).2 1 1).2.runSeconds :=
  ⟨(C4_amended_single_allocation 1 (by norm_num) 0).2.2.1,
   (C4_amended_single_allocation 1 (by norm_num) 0).2.2.2.1⟩
